import Mathlib

/-!
Verification development for the cdei-development repository: a shallow
embedding in Lean 4 of the data-analysis notebooks (fairness metrics, the
adult-data preprocessing pipeline, the notebook execution model and the
AIF360 dataset-copy discipline of the Hardt post-processing notebooks),
together with theorems settling the specification claims about them.
-/

namespace CdeiDev

/-! ## String cleaning from the adult preprocessing notebook

Embeds `clean_string` and `parse_native_country` from
`src/notebooks/finance/preprocessing.ipynb`.  Python `str.strip()` removes
leading and trailing whitespace, `str.lower()` lower-cases each character,
and `str.replace("-", "_")` rewrites every hyphen to an underscore. -/

/-- Whitespace characters stripped by Python `str.strip()`. -/
def isPyWhitespace (c : Char) : Bool :=
  c = ' ' || c = '\t' || c = '\n' || c = '\r' || c = Char.ofNat 11 || c = Char.ofNat 12

/-- Removes leading and trailing whitespace from a character list. -/
def stripChars (l : List Char) : List Char :=
  ((l.dropWhile isPyWhitespace).reverse.dropWhile isPyWhitespace).reverse

/-- Helper function that strips leading / trailing whitespace, lower cases,
and replaces hyphens with underscores (the notebook function `clean_string`). -/
def clean_string (s : String) : String :=
  String.mk (((stripChars s.data).map Char.toLower).map (fun c => if c = '-' then '_' else c))

/-- Groups countries other than United-States and Mexico into a single
"other" category (the notebook function `parse_native_country`). -/
def parse_native_country (country : String) : String :=
  let c := clean_string country
  if c = "united_states" || c = "mexico" then c else "other"

/-! ## Group fairness metrics

Embeds the metric computations the notebooks perform on a table of binary
true labels and binary predictions split by a binary protected attribute:
fairlearn's `false_positive_rate`, `false_negative_rate`, selection rate and
`demographic_parity_difference` (maximum minus minimum group selection
rate), and the `fpr_diff` / `fnr_diff` cell of the Hardt post-processing
notebook, which computes the NumPy absolute value of the white-group rate
minus the black-group rate. -/

/-- One individual of a test table: protected attribute (`a = true` is the
`race_white = 1` group), true label `y`, and model prediction `yhat`. -/
structure Row where
  a : Bool
  y : Bool
  yhat : Bool
deriving DecidableEq

/-- Rows of the group with protected-attribute value `b` (the notebook mask
`test.race_white == 1` and its complement). -/
def group (b : Bool) (rows : List Row) : List Row :=
  rows.filter (fun r => r.a == b)

/-- Fraction of rows with a positive prediction (fairlearn selection rate). -/
def selection_rate (rows : List Row) : ℚ :=
  ((rows.filter (fun r => r.yhat)).length : ℚ) / ((rows.length : ℚ))

/-- False positive rate: fraction of actual negatives predicted positive. -/
def false_positive_rate (rows : List Row) : ℚ :=
  ((rows.filter (fun r => !r.y && r.yhat)).length : ℚ) /
    ((rows.filter (fun r => !r.y)).length : ℚ)

/-- False negative rate: fraction of actual positives predicted negative. -/
def false_negative_rate (rows : List Row) : ℚ :=
  ((rows.filter (fun r => r.y && !r.yhat)).length : ℚ) /
    ((rows.filter (fun r => r.y)).length : ℚ)

/-- Conditional probability of a positive prediction given membership in the
protected group `b`, as a ratio of row counts. -/
def condProbPos (b : Bool) (rows : List Row) : ℚ :=
  ((rows.filter (fun r => r.a == b && r.yhat)).length : ℚ) /
    ((rows.filter (fun r => r.a == b)).length : ℚ)

/-- Fairlearn `demographic_parity_difference`: the largest group selection
rate minus the smallest, here over the two groups of a binary attribute. -/
def demographic_parity_difference (rows : List Row) : ℚ :=
  max (selection_rate (group false rows)) (selection_rate (group true rows)) -
    min (selection_rate (group false rows)) (selection_rate (group true rows))

/-- The `fpr_diff` value of the Hardt notebook cell:
`np.abs(white_fpr - black_fpr)`. -/
def fpr_diff (rows : List Row) : ℚ :=
  |false_positive_rate (group true rows) - false_positive_rate (group false rows)|

/-- The `fnr_diff` value of the Hardt notebook cell:
`np.abs(white_fnr - black_fnr)`. -/
def fnr_diff (rows : List Row) : ℚ :=
  |false_negative_rate (group true rows) - false_negative_rate (group false rows)|

/-- A small concrete test table used to witness the metric theorems. -/
def rowsDemo : List Row :=
  [⟨false, false, false⟩, ⟨false, false, true⟩, ⟨false, true, false⟩,
   ⟨true, true, true⟩, ⟨true, false, true⟩, ⟨true, true, false⟩]

/-! ## Column structure of the adult preprocessing pipeline

Embeds the column-level behaviour of `preprocessing.ipynb`: the hard-coded
`names` list, the dropped columns, the categorical / continuous / binary
feature lists, the `pd.get_dummies` one-hot columns (whose names depend on
the category values present in the data, abstracted as `cats`), and the
column sets of the CSV files the notebook writes. -/

/-- Hard-coded column names of the raw adult data files. -/
def names : List String :=
  ["age", "workclass", "fnlwgt", "education", "education_num", "marital_status",
   "occupation", "relationship", "race", "sex", "capital_gain", "capital_loss",
   "hours_per_week", "native_country", "salary"]

/-- Columns dropped right after loading (`drop(columns=["fnlwgt", "education_num"])`). -/
def droppedColumns : List String := ["fnlwgt", "education_num"]

/-- Categorical features that get one-hot encoded. -/
def one_hot_features : List String :=
  ["workclass", "education", "occupation", "race", "relationship",
   "marital_status", "native_country"]

/-- Continuous features, later standard-scaled. -/
def cts_features : List String :=
  ["age", "capital_gain", "capital_loss", "hours_per_week"]

/-- Binary features encoded as integers. -/
def binary_features : List String := ["sex", "salary"]

/-- Column selection used for the plain processed CSV files
(`cts_features + one_hot_features + binary_features`). -/
def original_features : List String := cts_features ++ one_hot_features ++ binary_features

/-- Columns of the loaded train / test frames after the drop. -/
def loadedColumns : List String := names.filter (fun n => !droppedColumns.contains n)

/-- Column names produced by `pd.get_dummies` for the categorical features,
given the list `cats c` of category values present in the data for feature
`c`: one indicator column `c ++ "_" ++ v` per value `v`. -/
def dummyColumns (cats : String → List String) : List String :=
  one_hot_features.flatMap (fun c => (cats c).map (fun v => c ++ "_" ++ v))

/-- Columns of `train_df` / `test_df` after concatenating the one-hot
indicator columns. -/
def trainDfColumns (cats : String → List String) : List String :=
  loadedColumns ++ dummyColumns cats

/-- Columns of the processed `train.csv` / `val.csv` / `test.csv` files
(the `train_df[original_features]` selection). -/
def processedCsvColumns : List String := original_features

/-- Columns of the `train-one-hot.csv` / `val-one-hot.csv` /
`test-one-hot.csv` files (`train_df.drop(columns=one_hot_features)`). -/
def oneHotCsvColumns (cats : String → List String) : List String :=
  (trainDfColumns cats).filter (fun c => !one_hot_features.contains c)

/-- A concrete category environment used for counterexamples: every
categorical feature has the single category value "a". -/
def catsDemo : String → List String := fun _ => ["a"]

/-- Modelled from the spec: the recruiting preprocessing notebook that
produces the synthetic-hiring CSV files is not part of the sources, so the
hiring column set is taken from the specification, which documents the
columns `sex_male, race_white, years_experience, ..., employed_yes`. -/
def recruitingTableColumns : List String :=
  ["sex_male", "race_white", "years_experience", "employed_yes"]

/-! ## Data frames and the StandardScaler step

Embeds the in-place column assignment
`train_df[cts_features] = ss.fit_transform(train_df[cts_features])` of the
preprocessing notebook.  A frame is a list of named rational columns; the
scaler replaces every continuous column by its standardised values
`(x - mean) / std`, where `std` is the square root of the population
variance (supplied as a parameter `stds` constrained by `isScalerStd`). -/

/-- A data frame: named columns of rational values. -/
abbrev Frame := List (String × List ℚ)

/-- Mean of a column. -/
def colMean (xs : List ℚ) : ℚ := xs.sum / ((xs.length : ℚ))

/-- Population variance of a column (as used by sklearn StandardScaler). -/
def colVar (xs : List ℚ) : ℚ :=
  ((xs.map (fun x => (x - colMean xs) ^ 2)).sum) / ((xs.length : ℚ))

/-- Standardised values of a column given its standard deviation `s`. -/
def standardizeCol (xs : List ℚ) (s : ℚ) : List ℚ :=
  xs.map (fun x => (x - colMean xs) / s)

/-- The StandardScaler cell: every continuous column of the frame is
overwritten in place with its standardised values. -/
def scaleCtsStep (f : Frame) (stds : String → ℚ) : Frame :=
  f.map (fun col =>
    if cts_features.contains col.1 then (col.1, standardizeCol col.2 (stds col.1)) else col)

/-- The parameter `stds` really is the standard deviation the scaler fits:
nonnegative, and its square is the population variance of the column. -/
def isScalerStd (f : Frame) (stds : String → ℚ) : Prop :=
  ∀ c xs, (c, xs) ∈ f → cts_features.contains c = true →
    0 ≤ stds c ∧ (stds c) ^ 2 = colVar xs

/-- A concrete two-column frame used in the read-only counterexample. -/
def frameDemo : Frame := [("age", [1, 3]), ("salary", [0, 1])]

/-! ## Notebook execution model

Each notebook of the repository is embedded as its named sequence of
effectful steps in cell order: CSV loads (with their path or URL), pickled
model loads, NumPy array loads, fairness-library calls, pure data
transforms (pandas `drop`, `assign`, `map`, masking and AIF360
constructions and predictions, all of which return new objects), in-place
frame mutations (the pandas `df[cols] = vals` column assignment, naming
the mutated frame), summary-statistic computations, metric printing, chart
rendering, CSV writes, plot-JSON exports, and sanity assertions.  File
paths are relative to the artifacts directory; exported plot JSON lands
under "plots/". -/

/-- One effectful notebook operation. -/
inductive Step where
  | loadCSV (path : String)
  | loadModel (path : String)
  | loadArray (path : String)
  | fairnessCall (fn : String)
  | transformData (desc : String)
  | mutateFrame (table : String) (desc : String)
  | computeStats
  | printMetrics
  | renderChart
  | writeCSV (path : String)
  | exportPlotJSON (path : String)
  | assertCheck (label : String)
deriving DecidableEq

/-- A notebook: a name and its steps in cell order. -/
structure Notebook where
  name : String
  steps : List Step
deriving DecidableEq

/-- The adult preprocessing notebook
(`src/notebooks/finance/preprocessing.ipynb`): loads the raw census data
from the UCI archive over HTTPS, checks category sets, one-hot encodes,
splits, scales, and writes six processed CSV files. -/
def preprocessingAdult : Notebook where
  name := "adult-preprocessing"
  steps :=
    [.loadCSV "https://archive.ics.uci.edu/ml/machine-learning-databases/adult/adult.data",
     .loadCSV "https://archive.ics.uci.edu/ml/machine-learning-databases/adult/adult.test",
     .assertCheck "train-test-education-categories",
     .assertCheck "train-test-race-categories",
     .assertCheck "train-test-relationship-categories",
     .assertCheck "train-test-marital-status-categories",
     .computeStats,
     .transformData "one-hot-encode",
     .assertCheck "train-test-columns-match",
     .transformData "train-val-split",
     .writeCSV "data/adult/processed/train.csv",
     .writeCSV "data/adult/processed/val.csv",
     .writeCSV "data/adult/processed/test.csv",
     .mutateFrame "train_df" "standard-scale-cts-features",
     .mutateFrame "val_df" "standard-scale-cts-features",
     .mutateFrame "test_df" "standard-scale-cts-features",
     .writeCSV "data/adult/processed/train-one-hot.csv",
     .writeCSV "data/adult/processed/val-one-hot.csv",
     .writeCSV "data/adult/processed/test-one-hot.csv"]

/-- The recruiting data analysis notebook: loads the processed and raw test
tables and renders three bias bar charts. -/
def recruitingAnalysis : Notebook where
  name := "recruiting-analysis"
  steps :=
    [.loadCSV "data/recruiting/processed/test.csv",
     .loadCSV "data/recruiting/raw/test.csv",
     .computeStats, .renderChart,
     .computeStats, .renderChart,
     .computeStats, .renderChart]

/-- The Hardt post-processing notebook on the recruiting data. -/
def hardtRecruiting : Notebook where
  name := "hardt-recruiting"
  steps :=
    [.loadCSV "data/recruiting/processed/train.csv",
     .loadCSV "data/recruiting/processed/val.csv",
     .loadCSV "data/recruiting/processed/test.csv",
     .transformData "standard-datasets",
     .loadModel "models/recruiting/baseline.pkl",
     .transformData "baseline-predictions-deep-copies",
     .fairnessCall "EqOddsPostprocessing.fit",
     .transformData "eq-odds-predict",
     .fairnessCall "false_negative_rate",
     .fairnessCall "false_positive_rate",
     .computeStats, .printMetrics,
     .computeStats, .printMetrics,
     .fairnessCall "equalized_odds_difference",
     .printMetrics,
     .renderChart]

/-- The Hardt post-processing notebook on the adult data. -/
def hardtFinance : Notebook where
  name := "hardt-finance"
  steps :=
    [.loadCSV "data/adult/processed/train-one-hot.csv",
     .loadCSV "data/adult/processed/val-one-hot.csv",
     .loadCSV "data/adult/processed/test-one-hot.csv",
     .transformData "standard-datasets",
     .loadModel "models/finance/baseline.pkl",
     .transformData "baseline-predictions-deep-copies",
     .fairnessCall "EqOddsPostprocessing.fit",
     .transformData "eq-odds-predict",
     .fairnessCall "false_negative_rate",
     .fairnessCall "false_positive_rate",
     .computeStats, .printMetrics,
     .computeStats, .printMetrics,
     .fairnessCall "equalized_odds_difference",
     .printMetrics,
     .renderChart]

/-- The fairness-through-unawareness notebook on the adult data. -/
def ftuFinance : Notebook where
  name := "ftu-finance"
  steps :=
    [.loadCSV "data/adult/processed/train-one-hot.csv",
     .loadCSV "data/adult/processed/val-one-hot.csv",
     .loadCSV "data/adult/processed/test-one-hot.csv",
     .loadModel "models/finance/baseline.pkl",
     .transformData "baseline-predict",
     .transformData "drop-sex-feature",
     .loadModel "models/finance/ftu.pkl",
     .transformData "ftu-predict",
     .fairnessCall "demographic_parity_difference",
     .computeStats, .printMetrics,
     .renderChart,
     .fairnessCall "equalized_odds_difference",
     .computeStats, .printMetrics,
     .renderChart, .renderChart,
     .fairnessCall "equalized_odds_difference",
     .computeStats, .printMetrics,
     .renderChart, .renderChart, .renderChart]

/-- The Zemel learning-fair-representations notebook on the adult data. -/
def zemelSex : Notebook where
  name := "zemel-sex-finance"
  steps :=
    [.loadCSV "data/adult/processed/train-one-hot.csv",
     .loadCSV "data/adult/processed/val-one-hot.csv",
     .loadCSV "data/adult/processed/test-one-hot.csv",
     .transformData "standard-datasets",
     .loadModel "models/finance/baseline.pkl",
     .transformData "baseline-predict",
     .loadModel "models/finance/zemel-sex.pkl",
     .transformData "lfr-transform",
     .fairnessCall "demographic_parity_difference",
     .fairnessCall "demographic_parity_ratio",
     .computeStats, .printMetrics,
     .renderChart,
     .exportPlotJSON "plots/zemel-sex-dp.json"]

/-- The Feldman disparate-impact-remover notebook on the adult data. -/
def feldmanFinance : Notebook where
  name := "feldman-finance"
  steps :=
    [.loadCSV "data/adult/processed/train-one-hot.csv",
     .loadCSV "data/adult/processed/val-one-hot.csv",
     .loadCSV "data/adult/processed/test-one-hot.csv",
     .transformData "standard-datasets",
     .loadModel "models/finance/baseline.pkl",
     .transformData "baseline-predict",
     .fairnessCall "DisparateImpactRemover.fit_transform",
     .loadModel "models/finance/feldman.pkl",
     .transformData "repaired-predict",
     .fairnessCall "demographic_parity_difference",
     .fairnessCall "demographic_parity_ratio",
     .computeStats, .printMetrics,
     .renderChart]

/-- The Feldman disparate-impact-remover notebook on the recruiting data. -/
def feldmanRecruiting : Notebook where
  name := "feldman-recruiting"
  steps :=
    [.loadCSV "data/recruiting/processed/train.csv",
     .loadCSV "data/recruiting/processed/val.csv",
     .loadCSV "data/recruiting/processed/test.csv",
     .transformData "standard-datasets",
     .loadModel "models/recruiting/baseline.pkl",
     .transformData "baseline-predict",
     .fairnessCall "DisparateImpactRemover.fit_transform",
     .loadModel "models/recruiting/feldman.pkl",
     .transformData "repaired-predict",
     .fairnessCall "disparate_impact_d",
     .fairnessCall "disparate_impact_p",
     .computeStats, .printMetrics,
     .renderChart]

/-- The Kamishima prejudice-remover notebook on the recruiting data. -/
def kamishimaRecruiting : Notebook where
  name := "kamishima-recruiting"
  steps :=
    [.loadCSV "data/recruiting/processed/train.csv",
     .loadCSV "data/recruiting/processed/val.csv",
     .loadCSV "data/recruiting/processed/test.csv",
     .transformData "standard-datasets",
     .loadModel "models/recruiting/baseline.pkl",
     .transformData "baseline-predict-deep-copy",
     .loadArray "models/recruiting/kamishima_test_scores.npy",
     .fairnessCall "demographic_parity_difference",
     .computeStats, .printMetrics,
     .renderChart]

/-- The Pleiss calibrated-equalized-odds notebook on the recruiting data. -/
def pleissRecruiting : Notebook where
  name := "pleiss-recruiting"
  steps :=
    [.loadCSV "data/recruiting/processed/train.csv",
     .loadCSV "data/recruiting/processed/val.csv",
     .loadCSV "data/recruiting/processed/test.csv",
     .transformData "standard-datasets",
     .loadModel "models/recruiting/baseline.pkl",
     .transformData "baseline-scores-deep-copies",
     .fairnessCall "CalibratedEqOddsPostprocessing.fit",
     .transformData "calibrated-eq-odds-predict",
     .fairnessCall "equalized_odds_difference",
     .computeStats, .printMetrics,
     .renderChart, .renderChart, .renderChart,
     .exportPlotJSON "plots/pleiss-eopp.json",
     .fairnessCall "CalibratedEqOddsPostprocessing.fit",
     .transformData "calibrated-eq-odds-predict",
     .fairnessCall "equalized_odds_difference",
     .computeStats, .printMetrics,
     .renderChart, .renderChart, .renderChart,
     .exportPlotJSON "plots/pleiss-bl-eo.json",
     .exportPlotJSON "plots/pleiss-eo.json"]

/-- The Kamiran reject-option-classification notebook on the recruiting
data (three intervention passes for three target metrics). -/
def kamiranRecruiting : Notebook where
  name := "kamiran-recruiting"
  steps :=
    [.loadCSV "data/recruiting/processed/train.csv",
     .loadCSV "data/recruiting/processed/val.csv",
     .loadCSV "data/recruiting/processed/test.csv",
     .transformData "standard-datasets",
     .loadModel "models/recruiting/baseline.pkl",
     .transformData "baseline-scores-deep-copies",
     .fairnessCall "RejectOptionClassification.fit",
     .transformData "reject-option-predict",
     .fairnessCall "demographic_parity_difference",
     .computeStats, .printMetrics,
     .computeStats, .printMetrics,
     .renderChart,
     .exportPlotJSON "plots/kamiran-dp.json",
     .fairnessCall "RejectOptionClassification.fit",
     .transformData "reject-option-predict",
     .fairnessCall "equalized_odds_difference",
     .computeStats, .printMetrics,
     .renderChart,
     .exportPlotJSON "plots/kamiran-eo.json",
     .fairnessCall "RejectOptionClassification.fit",
     .transformData "reject-option-predict",
     .fairnessCall "equalized_odds_difference",
     .computeStats, .printMetrics,
     .renderChart,
     .exportPlotJSON "plots/kamiran-eopp.json"]

/-- All notebooks of the repository sources. -/
def notebooksList : List Notebook :=
  [preprocessingAdult, recruitingAnalysis, hardtRecruiting, hardtFinance,
   ftuFinance, zemelSex, feldmanFinance, feldmanRecruiting,
   kamishimaRecruiting, pleissRecruiting, kamiranRecruiting]

/-- The notebooks that apply a fairness intervention or measure a model. -/
def interventionNotebooks : List Notebook :=
  [hardtRecruiting, hardtFinance, ftuFinance, zemelSex, feldmanFinance,
   feldmanRecruiting, kamishimaRecruiting, pleissRecruiting, kamiranRecruiting]

/-- Step classifiers for the pipeline shape. -/
def isLoadCSV : Step → Bool
  | .loadCSV _ => true
  | _ => false

/-- True on pickled-model loads. -/
def isLoadModel : Step → Bool
  | .loadModel _ => true
  | _ => false

/-- True on fairness-library calls. -/
def isFairnessCall : Step → Bool
  | .fairnessCall _ => true
  | _ => false

/-- True on summary-statistic computations. -/
def isComputeStats : Step → Bool
  | .computeStats => true
  | _ => false

/-- True on chart renderings. -/
def isRenderChart : Step → Bool
  | .renderChart => true
  | _ => false

/-- True on in-place dataset mutations. -/
def isMutateFrame : Step → Bool
  | .mutateFrame _ _ => true
  | _ => false

/-- The pipeline shape of the spec: load CSV, then load a pickled model,
then call a fairness-library function, then compute summary statistics,
then render a chart. -/
def pipelineShape : List (Step → Bool) :=
  [isLoadCSV, isLoadModel, isFairnessCall, isComputeStats, isRenderChart]

/-- Greedy in-order subsequence matcher for a list of step classifiers. -/
def hasSubsequence : List (Step → Bool) → List Step → Bool
  | [], _ => true
  | _ :: _, [] => false
  | p :: ps, s :: ss => if p s then hasSubsequence ps ss else hasSubsequence (p :: ps) ss

/-- A notebook follows the spec pipeline when its steps contain the five
pipeline stages in order. -/
def followsPipeline (nb : Notebook) : Bool :=
  hasSubsequence pipelineShape nb.steps

/-- Files a step reads. -/
def stepReads : Step → List String
  | .loadCSV p => [p]
  | .loadModel p => [p]
  | .loadArray p => [p]
  | _ => []

/-- Files a step writes. -/
def stepWrites : Step → List String
  | .writeCSV p => [p]
  | .exportPlotJSON p => [p]
  | _ => []

/-- All files a notebook reads. -/
def readsOf (nb : Notebook) : List String := nb.steps.flatMap stepReads

/-- The CSV tables a notebook loads. -/
def csvReadsOf (nb : Notebook) : List String :=
  nb.steps.flatMap (fun s => match s with | .loadCSV p => [p] | _ => [])

/-- All files a notebook writes. -/
def writesOf (nb : Notebook) : List String := nb.steps.flatMap stepWrites

/-- The CSV files a notebook writes. -/
def csvWritesOf (nb : Notebook) : List String :=
  nb.steps.flatMap (fun s => match s with | .writeCSV p => [p] | _ => [])

/-- A path is a network source when it is an http or https URL. -/
def isNetworkPath (p : String) : Bool :=
  match p.data with
  | 'h' :: 't' :: 't' :: 'p' :: _ => true
  | _ => false

/-- Executes a notebook under an environment `env` deciding which sanity
assertions hold: returns the steps that actually ran and, when an
assertion failed, the label of the failing assertion.  A failing assertion
stops execution immediately; there is no construct that catches, retries,
or transforms the failure. -/
def runNotebook (env : String → Bool) : List Step → List Step × Option String
  | [] => ([], none)
  | .assertCheck lbl :: rest =>
      if env lbl then
        let r := runNotebook env rest
        (.assertCheck lbl :: r.1, r.2)
      else ([], some lbl)
  | s :: rest =>
      let r := runNotebook env rest
      (s :: r.1, r.2)

/-- An environment in which every sanity assertion fails. -/
def envFalse : String → Bool := fun _ => false

/-- The steps of the preprocessing notebook before its first assertion. -/
def preW : List Step :=
  [.loadCSV "https://archive.ics.uci.edu/ml/machine-learning-databases/adult/adult.data",
   .loadCSV "https://archive.ics.uci.edu/ml/machine-learning-databases/adult/adult.test"]

/-- The steps of the preprocessing notebook after its first assertion. -/
def postW : List Step :=
  [.assertCheck "train-test-race-categories",
   .assertCheck "train-test-relationship-categories",
   .assertCheck "train-test-marital-status-categories",
   .computeStats,
   .transformData "one-hot-encode",
   .assertCheck "train-test-columns-match",
   .transformData "train-val-split",
   .writeCSV "data/adult/processed/train.csv",
   .writeCSV "data/adult/processed/val.csv",
   .writeCSV "data/adult/processed/test.csv",
   .mutateFrame "train_df" "standard-scale-cts-features",
   .mutateFrame "val_df" "standard-scale-cts-features",
   .mutateFrame "test_df" "standard-scale-cts-features",
   .writeCSV "data/adult/processed/train-one-hot.csv",
   .writeCSV "data/adult/processed/val-one-hot.csv",
   .writeCSV "data/adult/processed/test-one-hot.csv"]

/-- Table-store semantics of a notebook run.  The state maps dataset
identifiers to their current frame: `loadCSV p` binds `p` to the table
`load p` read from that source, `mutateFrame t desc` rewrites the frame
bound to `t` in place through the mutation function `mutate`, and every
other step leaves the store untouched (each of the remaining operations
only creates new objects, prints, or writes files). -/
def runFrames (load : String → Frame) (mutate : String → String → Frame → Frame) :
    List Step → List (String × Frame) → List (String × Frame)
  | [], st => st
  | .loadCSV p :: rest, st => runFrames load mutate rest ((p, load p) :: st)
  | .mutateFrame t desc :: rest, st =>
      runFrames load mutate rest
        (st.map (fun e => if e.1 = t then (e.1, mutate t desc e.2) else e))
  | _ :: rest, st => runFrames load mutate rest st

/-- The table store after a notebook has run from an empty store. -/
def framesAfter (load : String → Frame) (mutate : String → String → Frame → Frame)
    (nb : Notebook) : List (String × Frame) :=
  runFrames load mutate nb.steps []

/-- The store holding every loaded table exactly as it was read, most
recent load first: what the store looks like when nothing was mutated. -/
def loadedStore (load : String → Frame) (nb : Notebook) : List (String × Frame) :=
  (csvReadsOf nb).reverse.map (fun p => (p, load p))

/-! ## AIF360 dataset objects and the Hardt notebook heap

Embeds the object discipline of the Hardt post-processing notebooks: the
`StandardDataset` objects live on a heap of allocated objects,
`copy(deepcopy=True)` allocates an independent copy, assigning to `labels`
mutates only the addressed object, and `EqOddsPostprocessing.predict`
returns a fresh dataset (modelled by the parameter `eoppPredict`). -/

/-- An AIF360 StandardDataset: feature matrix and label column. -/
structure SDS where
  features : List (List ℚ)
  labels : List ℚ
deriving DecidableEq

/-- Allocates a new object, returning the new heap and its address. -/
def alloc (h : List SDS) (d : SDS) : List SDS × Nat := (h ++ [d], h.length)

/-- Reads the object at an address. -/
def heapGet (h : List SDS) (a : Nat) : Option SDS := h[a]?

/-- The `copy(deepcopy=True)` call: allocates an independent copy of the
object at address `a`. -/
def copyDeep (h : List SDS) (a : Nat) : List SDS × Nat :=
  alloc h ((heapGet h a).getD ⟨[], []⟩)

/-- The `obj.labels = ...` assignment: overwrites the labels of the object
at address `a` only. -/
def setLabelsAt (h : List SDS) (a : Nat) (l : List ℚ) : List SDS :=
  match heapGet h a with
  | some d => h.set a { d with labels := l }
  | none => h

/-- Final state of the Hardt notebook pipeline: the heap and the addresses
bound to the notebook variables. -/
structure HardtState where
  heap : List SDS
  trainSds : Nat
  testSds : Nat
  valSds : Nat
  valSdsPred : Nat
  testSdsPred : Nat
  testSdsPredTransf : Nat

/-- The Hardt notebook object trace: construct the train / test / val
StandardDatasets, deep-copy val and test into prediction datasets and
overwrite the copies' labels with the baseline model predictions, fit the
intervention (read-only), and let `eopp.predict` produce a fresh
transformed dataset from the test prediction dataset. -/
def hardtPipeline (train val test : SDS) (blValPred blTestPred : List ℚ)
    (eoppPredict : SDS → SDS) : HardtState :=
  let r1 := alloc [] train
  let r2 := alloc r1.1 test
  let r3 := alloc r2.1 val
  let r4 := copyDeep r3.1 r3.2
  let h5 := setLabelsAt r4.1 r4.2 blValPred
  let r6 := copyDeep h5 r2.2
  let h7 := setLabelsAt r6.1 r6.2 blTestPred
  let r8 := alloc h7 (eoppPredict ((heapGet h7 r6.2).getD ⟨[], []⟩))
  ⟨r8.1, r1.2, r2.2, r3.2, r4.2, r6.2, r8.2⟩

/-! ## Helper lemmas -/

/-- Selection rate of a protected group is the group-conditional probability
of a positive prediction. -/
theorem selection_rate_group_eq (b : Bool) (rows : List Row) :
    selection_rate (group b rows) = condProbPos b rows := by
  unfold selection_rate condProbPos group
  rw [List.filter_filter]
  simp only [Bool.and_comm]

/-- The scaler step does not change the column names of a frame. -/
theorem scaleCtsStep_map_fst (f : Frame) (stds : String → ℚ) :
    (scaleCtsStep f stds).map Prod.fst = f.map Prod.fst := by
  unfold scaleCtsStep
  rw [List.map_map]
  apply List.map_congr_left
  intro col _
  by_cases h : col.1 ∈ cts_features <;> simp [h]

/-- The scaler step keeps every column outside `cts_features` unchanged. -/
theorem scaleCtsStep_mem_non_cts (f : Frame) (stds : String → ℚ) (c : String)
    (xs : List ℚ) (hc : c ∉ cts_features) :
    ((c, xs) ∈ scaleCtsStep f stds) ↔ (c, xs) ∈ f := by
  unfold scaleCtsStep
  constructor
  · intro hmem
    rcases List.mem_map.mp hmem with ⟨col, hcol, hg⟩
    by_cases h : col.1 ∈ cts_features
    · rw [if_pos (by simpa using h)] at hg
      have h1 : col.1 = c := congrArg Prod.fst hg
      exact absurd (h1 ▸ h) hc
    · rw [if_neg (by simpa using h)] at hg
      exact hg ▸ hcol
  · intro hmem
    refine List.mem_map.mpr ⟨(c, xs), hmem, ?_⟩
    rw [if_neg (by simpa using hc)]

/-- Execution of a step list halts at the first failing assertion: exactly
the preceding steps run and the failure label is reported unchanged. -/
theorem runNotebook_halts_at_assert (env : String → Bool) (lbl : String)
    (post : List Step) (hfail : env lbl = false) :
    ∀ pre : List Step, (∀ l, Step.assertCheck l ∈ pre → env l = true) →
      runNotebook env (pre ++ Step.assertCheck lbl :: post) = (pre, some lbl) := by
  intro pre
  induction pre with
  | nil => intro _; simp [runNotebook, hfail]
  | cons s t ih =>
    intro hpre
    have ht : ∀ l, Step.assertCheck l ∈ t → env l = true :=
      fun l hl => hpre l (List.mem_cons_of_mem _ hl)
    cases s with
    | assertCheck l =>
      have hl : env l = true := hpre l (List.mem_cons_self _ _)
      simp [runNotebook, hl, ih ht]
    | loadCSV p => simp [runNotebook, ih ht]
    | loadModel p => simp [runNotebook, ih ht]
    | loadArray p => simp [runNotebook, ih ht]
    | fairnessCall p => simp [runNotebook, ih ht]
    | transformData p => simp [runNotebook, ih ht]
    | mutateFrame t d => simp [runNotebook, ih ht]
    | computeStats => simp [runNotebook, ih ht]
    | printMetrics => simp [runNotebook, ih ht]
    | renderChart => simp [runNotebook, ih ht]
    | writeCSV p => simp [runNotebook, ih ht]
    | exportPlotJSON p => simp [runNotebook, ih ht]

/-! ## Claim theorems -/

/-- C1: for any table split by the binary protected attribute into two
non-empty groups, the demographic parity difference computed as in
fairlearn (max group selection rate minus min) equals the absolute
difference of the two group-conditional positive-prediction probabilities,
and the `fpr_diff` / `fnr_diff` values printed by the Hardt post-processing
notebook equal the absolute value of the `race_white = 1` group rate minus
the `race_white = 0` group rate. -/
theorem disparity_measures_are_abs_differences (rows : List Row)
    (h0 : group false rows ≠ []) (h1 : group true rows ≠ []) :
    demographic_parity_difference rows = |condProbPos false rows - condProbPos true rows| ∧
    fpr_diff rows =
      |false_positive_rate (group true rows) - false_positive_rate (group false rows)| ∧
    fnr_diff rows =
      |false_negative_rate (group true rows) - false_negative_rate (group false rows)| := by
  refine ⟨?_, rfl, rfl⟩
  rw [demographic_parity_difference, max_sub_min_eq_abs,
    selection_rate_group_eq, selection_rate_group_eq, abs_sub_comm]

/-- Witness for C1 on a concrete six-row table with both groups non-empty. -/
theorem disparity_measures_are_abs_differences_witness :
    (group false rowsDemo ≠ [] ∧ group true rowsDemo ≠ []) ∧
    (demographic_parity_difference rowsDemo =
        |condProbPos false rowsDemo - condProbPos true rowsDemo| ∧
      fpr_diff rowsDemo =
        |false_positive_rate (group true rowsDemo) -
          false_positive_rate (group false rowsDemo)| ∧
      fnr_diff rowsDemo =
        |false_negative_rate (group true rowsDemo) -
          false_negative_rate (group false rowsDemo)|) :=
  ⟨⟨by decide, by decide⟩,
    disparity_measures_are_abs_differences rowsDemo (by decide) (by decide)⟩

/-- C2 counterexample: the recruiting data analysis notebook is a notebook
of the repository yet does not follow the load-CSV, load-model,
fairness-call, statistics, chart pipeline (it loads no pickled model and
calls no fairness-library function). -/
theorem notebooks_pipeline_counterexample :
    recruitingAnalysis ∈ notebooksList ∧ followsPipeline recruitingAnalysis = false := by
  decide

/-- C2 amended: every intervention notebook follows the pipeline in order,
while the recruiting analysis notebook and the adult preprocessing notebook
do not; these are the only notebooks outside the intervention list. -/
theorem intervention_notebooks_follow_pipeline :
    interventionNotebooks.all followsPipeline = true ∧
    followsPipeline recruitingAnalysis = false ∧
    followsPipeline preprocessingAdult = false ∧
    notebooksList.all (fun nb =>
      interventionNotebooks.contains nb || nb == recruitingAnalysis ||
        nb == preprocessingAdult) = true := by
  decide

/-- C3 counterexample: the StandardScaler cell of the preprocessing
notebook modifies a loaded dataset in place. On the concrete frame
`frameDemo` with the genuine scaler standard deviation (constantly 1, since
the age column has variance 1) the frame after the scaling step differs
from the frame as loaded. -/
theorem scaler_mutates_loaded_frame :
    isScalerStd frameDemo (fun _ => 1) ∧
    scaleCtsStep frameDemo (fun _ => 1) ≠ frameDemo := by
  constructor
  · intro c xs hmem hc
    rcases (by simpa [frameDemo] using hmem :
        (c = "age" ∧ xs = [1, 3]) ∨ (c = "salary" ∧ xs = [0, 1])) with ⟨h1, h2⟩ | ⟨h1, h2⟩
    · subst h1; subst h2
      exact ⟨by norm_num, by norm_num [colVar, colMean]⟩
    · subst h1
      exact absurd hc (by decide)
  · norm_num [scaleCtsStep, frameDemo, cts_features, standardizeCol, colMean]

/-- C3 amended: datasets are loaded at most once per notebook (the CSV read
lists are duplicate-free) and are read-only in every notebook except the
adult preprocessing notebook: whatever data is loaded and whatever the
mutation function does, running any other notebook leaves the table store
holding exactly the loaded tables with their loaded values, and the
preprocessing notebook is the only one containing an in-place frame
mutation (its StandardScaler cell), which moreover only rewrites the
continuous-feature columns, preserving column names and every column
outside `cts_features`. -/
theorem datasets_read_only_amended :
    (∀ (load : String → Frame) (mutate : String → String → Frame → Frame)
        (nb : Notebook), nb ∈ notebooksList → nb.name ≠ "adult-preprocessing" →
        framesAfter load mutate nb = loadedStore load nb) ∧
    (preprocessingAdult.steps.any isMutateFrame = true ∧
      (notebooksList.filter (fun nb => nb.name != "adult-preprocessing")).all
        (fun nb => nb.steps.all (fun s => !isMutateFrame s)) = true) ∧
    (∀ (f : Frame) (stds : String → ℚ),
        (scaleCtsStep f stds).map Prod.fst = f.map Prod.fst) ∧
    (∀ (f : Frame) (stds : String → ℚ) (c : String) (xs : List ℚ),
        c ∉ cts_features → (((c, xs) ∈ scaleCtsStep f stds) ↔ (c, xs) ∈ f)) ∧
    (∀ nb, nb ∈ notebooksList → (csvReadsOf nb).Nodup) := by
  refine ⟨?_, by decide, scaleCtsStep_map_fst, scaleCtsStep_mem_non_cts, ?_⟩
  · intro load mutate nb hnb hname
    fin_cases hnb
    · exact absurd rfl hname
    all_goals rfl
  · intro nb hnb
    fin_cases hnb <;> decide

/-- Witness for C3 amended at a concrete load environment and the Hardt
recruiting notebook, plus the concrete frame and a non-continuous column. -/
theorem datasets_read_only_amended_witness :
    framesAfter (fun _ => frameDemo) (fun _ _ f => f) hardtRecruiting =
      loadedStore (fun _ => frameDemo) hardtRecruiting ∧
    ((("salary", ([0, 1] : List ℚ)) ∈ scaleCtsStep frameDemo (fun _ => 1)) ↔
      ("salary", ([0, 1] : List ℚ)) ∈ frameDemo) ∧
    (csvReadsOf hardtRecruiting).Nodup :=
  ⟨datasets_read_only_amended.1 (fun _ => frameDemo) (fun _ _ f => f)
      hardtRecruiting (by decide) (by decide),
    datasets_read_only_amended.2.2.2.1 frameDemo (fun _ => 1) "salary" [0, 1] (by decide),
    datasets_read_only_amended.2.2.2.2 hardtRecruiting (by decide)⟩

/-- C4 counterexample: the adult preprocessing notebook reads its input
tables over the network, from the UCI archive HTTPS URLs. -/
theorem preprocessing_reads_network_counterexample :
    preprocessingAdult ∈ notebooksList ∧
    "https://archive.ics.uci.edu/ml/machine-learning-databases/adult/adult.data" ∈
      readsOf preprocessingAdult ∧
    isNetworkPath
      "https://archive.ics.uci.edu/ml/machine-learning-databases/adult/adult.data" = true := by
  decide

/-- C4 amended: every notebook other than the adult preprocessing notebook
reads only local (non-URL) files, while the preprocessing notebook reads
exactly the two UCI census files over HTTPS. -/
theorem local_reads_except_preprocessing :
    (notebooksList.filter (fun nb => nb.name != "adult-preprocessing")).all
      (fun nb => (readsOf nb).all (fun p => !isNetworkPath p)) = true ∧
    readsOf preprocessingAdult =
      ["https://archive.ics.uci.edu/ml/machine-learning-databases/adult/adult.data",
       "https://archive.ics.uci.edu/ml/machine-learning-databases/adult/adult.test"] := by
  decide

/-- C5: no notebook operation catches, retries, or transforms an error.
For every notebook of the repository, whenever an assertion in its step
list fails under the environment while all earlier assertions pass, the
run stops at that assertion: exactly the preceding steps have executed and
the failure surfaces to the user under its own label, with no recovery
step running afterwards. -/
theorem failures_propagate (env : String → Bool) (nb : Notebook)
    (hnb : nb ∈ notebooksList) (pre : List Step) (lbl : String) (post : List Step)
    (hsplit : nb.steps = pre ++ Step.assertCheck lbl :: post)
    (hpre : ∀ l, Step.assertCheck l ∈ pre → env l = true)
    (hfail : env lbl = false) :
    runNotebook env nb.steps = (pre, some lbl) := by
  rw [hsplit]
  exact runNotebook_halts_at_assert env lbl post hfail pre hpre

/-- Witness for C5: under the all-false environment the preprocessing
notebook halts at its first category-set assertion with only the two CSV
loads executed. -/
theorem failures_propagate_witness :
    (preprocessingAdult ∈ notebooksList ∧
      preprocessingAdult.steps =
        preW ++ Step.assertCheck "train-test-education-categories" :: postW ∧
      envFalse "train-test-education-categories" = false) ∧
    runNotebook envFalse preprocessingAdult.steps =
      (preW, some "train-test-education-categories") :=
  ⟨⟨by decide, by decide, rfl⟩,
    failures_propagate envFalse preprocessingAdult (by decide) preW
      "train-test-education-categories" postW (by decide)
      (by intro l hl; simp [preW] at hl) rfl⟩

/-- C6 counterexample: the adult preprocessing notebook writes processed
CSV artifacts, not just printed metrics and plot JSON. -/
theorem preprocessing_writes_csv_counterexample :
    preprocessingAdult ∈ notebooksList ∧
    "data/adult/processed/train.csv" ∈ csvWritesOf preprocessingAdult := by
  decide

/-- C6 amended: every notebook other than the adult preprocessing notebook
produces only printed metrics and exported plot JSON (it writes no CSV),
while the preprocessing notebook writes exactly the six processed CSVs. -/
theorem outputs_only_prints_and_plots_except_preprocessing :
    (notebooksList.filter (fun nb => nb.name != "adult-preprocessing")).all
      (fun nb => (csvWritesOf nb).isEmpty) = true ∧
    csvWritesOf preprocessingAdult =
      ["data/adult/processed/train.csv", "data/adult/processed/val.csv",
       "data/adult/processed/test.csv", "data/adult/processed/train-one-hot.csv",
       "data/adult/processed/val-one-hot.csv", "data/adult/processed/test-one-hot.csv"] := by
  decide

/-- C7 counterexample: the one-hot income tables read by the finance
notebooks do not contain the `workclass` column (it is dropped in favour of
its one-hot indicators), although the processed categorical tables do. -/
theorem one_hot_table_lacks_workclass :
    "data/adult/processed/train-one-hot.csv" ∈ readsOf ftuFinance ∧
    "workclass" ∉ oneHotCsvColumns catsDemo ∧
    "workclass" ∈ processedCsvColumns := by
  decide

/-- C7 amended: the processed income tables contain age, workclass, sex and
salary; the one-hot income tables contain age, sex and salary but never the
raw `workclass` column, whatever category values occur in the data; and the
synthetic-hiring tables (modelled from the spec) contain sex_male,
race_white, years_experience and employed_yes. -/
theorem dataset_column_guarantees :
    ("age" ∈ processedCsvColumns ∧ "workclass" ∈ processedCsvColumns ∧
      "sex" ∈ processedCsvColumns ∧ "salary" ∈ processedCsvColumns) ∧
    (∀ cats, "age" ∈ oneHotCsvColumns cats ∧ "sex" ∈ oneHotCsvColumns cats ∧
      "salary" ∈ oneHotCsvColumns cats ∧ "workclass" ∉ oneHotCsvColumns cats) ∧
    ("sex_male" ∈ recruitingTableColumns ∧ "race_white" ∈ recruitingTableColumns ∧
      "years_experience" ∈ recruitingTableColumns ∧
      "employed_yes" ∈ recruitingTableColumns) := by
  refine ⟨by decide, ?_, by decide⟩
  intro cats
  unfold oneHotCsvColumns trainDfColumns
  rw [List.filter_append]
  refine ⟨?_, ?_, ?_, ?_⟩
  · exact List.mem_append_left _ (by decide)
  · exact List.mem_append_left _ (by decide)
  · exact List.mem_append_left _ (by decide)
  · intro h
    rcases List.mem_append.mp h with h1 | h2
    · exact absurd h1 (by decide)
    · exact absurd (List.mem_filter.mp h2).2 (by decide)

/-- C8 counterexample: the fairness-through-unawareness notebook reads a
file that the adult preprocessing notebook writes, so the two read and
write sets are not disjoint and the notebooks are not runtime-independent. -/
theorem ftu_reads_preprocessing_output :
    ftuFinance ∈ notebooksList ∧ preprocessingAdult ∈ notebooksList ∧
    ftuFinance.name ≠ preprocessingAdult.name ∧
    "data/adult/processed/train-one-hot.csv" ∈ readsOf ftuFinance ∧
    "data/adult/processed/train-one-hot.csv" ∈ writesOf preprocessingAdult := by
  decide

/-- C8 amended: apart from the adult preprocessing notebook, whose processed
CSV outputs the finance notebooks read, no notebook reads any file another
notebook writes. -/
theorem standalone_except_preprocessing_outputs :
    notebooksList.all (fun r => notebooksList.all (fun w =>
      w.name == "adult-preprocessing" ||
        (readsOf r).all (fun p => !(writesOf w).contains p))) = true := by
  decide

/-- C9: the Hardt post-processing pipeline leaves the original validation
and test StandardDataset objects unchanged: after building the prediction
datasets as deep copies, overwriting the copies' labels, fitting the
intervention and predicting, the heap still holds the original `val_sds`,
`test_sds` (and `train_sds`) values at their addresses, while the copies
hold the overwritten labels. -/
theorem hardt_preserves_original_datasets (train val test : SDS)
    (blValPred blTestPred : List ℚ) (eoppPredict : SDS → SDS) :
    heapGet (hardtPipeline train val test blValPred blTestPred eoppPredict).heap
        (hardtPipeline train val test blValPred blTestPred eoppPredict).valSds = some val ∧
    heapGet (hardtPipeline train val test blValPred blTestPred eoppPredict).heap
        (hardtPipeline train val test blValPred blTestPred eoppPredict).testSds = some test ∧
    heapGet (hardtPipeline train val test blValPred blTestPred eoppPredict).heap
        (hardtPipeline train val test blValPred blTestPred eoppPredict).trainSds = some train ∧
    heapGet (hardtPipeline train val test blValPred blTestPred eoppPredict).heap
        (hardtPipeline train val test blValPred blTestPred eoppPredict).valSdsPred =
      some ⟨val.features, blValPred⟩ :=
  ⟨rfl, rfl, rfl, rfl⟩

/-- C10: `parse_native_country` returns the cleaned string when that
cleaned string is "united_states" or "mexico" and "other" otherwise; its
range is exactly these three values; and it is idempotent. -/
theorem parse_native_country_spec :
    (∀ s, parse_native_country s =
        if clean_string s = "united_states" ∨ clean_string s = "mexico"
        then clean_string s else "other") ∧
    (∀ s, parse_native_country s = "united_states" ∨
        parse_native_country s = "mexico" ∨ parse_native_country s = "other") ∧
    (∃ s1 s2 s3, parse_native_country s1 = "united_states" ∧
        parse_native_country s2 = "mexico" ∧ parse_native_country s3 = "other") ∧
    (∀ s, parse_native_country (parse_native_country s) = parse_native_country s) := by
  have hval : ∀ s, parse_native_country s =
      if clean_string s = "united_states" ∨ clean_string s = "mexico"
      then clean_string s else "other" := by
    intro s
    unfold parse_native_country
    by_cases h1 : clean_string s = "united_states" <;>
      by_cases h2 : clean_string s = "mexico" <;> simp [h1, h2]
  have hrange : ∀ s, parse_native_country s = "united_states" ∨
      parse_native_country s = "mexico" ∨ parse_native_country s = "other" := by
    intro s
    rw [hval s]
    by_cases h1 : clean_string s = "united_states" <;>
      by_cases h2 : clean_string s = "mexico" <;> simp [h1, h2]
  refine ⟨hval, hrange,
    ⟨"United-States", "Mexico", "Peru", by decide, by decide, by decide⟩, ?_⟩
  intro s
  rcases hrange s with h | h | h <;> rw [h] <;> decide

end CdeiDev
